import Mathlib

/-!
Shallow embedding of `news_bot.py` (the NewsPulse Telegram bot).

The embedding covers the query-resolution and result-rendering pipeline of
`get_news`, the message-to-query path of `search_news`, and the URL
construction.  JSON values coming back from the news provider are modelled
with `JField` (a key can be absent, hold JSON `null`, or hold a value); the
HTTP layer is modelled by `HttpResult` (a transport error, or a response
with a status code and an optional parsed body, `none` standing for a body
that fails JSON decoding).  Python exceptions that can escape `get_news`
are the values of `PyError`:

* `raise_for_status()` raises `httpx.HTTPStatusError` on a non-2xx status;
  the `except` clause of `get_news` catches only `httpx.RequestError` and
  `json.JSONDecodeError`, and `HTTPStatusError` is not a subclass of
  `RequestError`, so it escapes (`PyError.httpStatusError`);
* `article.get("source", {}).get("name", ...)` raises `AttributeError`
  when the article carries `"source": null`, since `None` has no `.get`
  (`PyError.attributeError`).

The model keeps the scope of the bodies the claims talk about: a decoded
body is a JSON object whose `articles` key, when present, holds a list of
article objects whose `title` / `url` / `description` fields and
`source.name` field are absent, null or strings.
-/

namespace NewsBot

/-- A JSON object field as seen through Python's `dict.get`: the key can be
absent, present with value `null` (Python `None`), or present with a value. -/
inductive JField (α : Type) where
  | absent : JField α
  | null : JField α
  | val : α → JField α
deriving DecidableEq

/-- The nested `source` object of an article (`{"name": ...}`). -/
structure Source where
  name : JField String
deriving DecidableEq

/-- One article object of the provider's response. -/
structure Article where
  title : JField String
  url : JField String
  description : JField String
  source : JField Source
deriving DecidableEq

/-- The decoded JSON body: an object whose `articles` key holds a list of
articles when present (`data.get("articles", [])` defaults it to `[]`). -/
structure NewsData where
  articles : Option (List Article)
deriving DecidableEq

/-- Python exceptions that can escape `get_news`. -/
inductive PyError where
  | httpStatusError
  | attributeError
deriving DecidableEq

/-- Outcome of the outbound HTTP GET: a transport error
(`httpx.RequestError` raised by `client.get`), or a response carrying a
status code and a body; `none` as body means `response.json()` raises
`json.JSONDecodeError`. -/
inductive HttpResult where
  | transportError : HttpResult
  | response : Nat → Option NewsData → HttpResult
deriving DecidableEq

/-- The apostrophe character, U+0027. -/
def apos : String := String.mk [Char.ofNat 39]

/-- Lines 44-50 of `news_bot.py`: `query_map.get(topic, topic)` over the
four-entry dict literal. -/
def resolveQuery (topic : String) : String :=
  if topic = "stocks" then "stock market"
  else if topic = "ai" then "artificial intelligence"
  else if topic = "crypto" then "cryptocurrency"
  else if topic = "tech" then "technology"
  else topic

/-- Line 52: the f-string building the request URL by direct interpolation
of the query and the API key. -/
def buildUrl (query apiKey : String) : String :=
  "https://newsapi.org/v2/everything?q=" ++ query ++
    "&language=en&sortBy=publishedAt&apiKey=" ++ apiKey

/-- Line 61: the message returned when the `except` clause catches
`httpx.RequestError` or `json.JSONDecodeError`. -/
def fetchErrorMsg : String :=
  "⚠️ Sorry, I couldn" ++ apos ++ "t fetch the news right now. Please try again later."

/-- Line 66: the message returned when the truncated article list is empty. -/
def noArticlesMsg (query : String) : String :=
  "⚠️ No recent articles found for " ++ apos ++ query ++ apos ++ "."

/-- Python `article.get(key, dflt)` for a string-valued field: the default
applies only when the key is absent; a present `null` yields `None`. -/
def pyGet (f : JField String) (dflt : String) : Option String :=
  match f with
  | JField.absent => some dflt
  | JField.null => none
  | JField.val s => some s

/-- The `if not x: x = dflt` fix-up of lines 75-77: `None` and the empty
string are falsy and are replaced by the default. -/
def fixFalsy (v : Option String) (dflt : String) : String :=
  match v with
  | none => dflt
  | some s => if s = "" then dflt else s

/-- Line 70 plus line 75: resolution of the title field. -/
def resolveTitle (a : Article) : String :=
  fixFalsy (pyGet a.title "No title") "No title"

/-- Python string interpolation of a value that may be `None`
(f-strings print `None` as the four letters `None`). -/
def pyShow (v : Option String) : String :=
  match v with
  | none => "None"
  | some s => s

/-- Line 71: `article.get("url", "")`, interpolated without any fix-up. -/
def resolveUrl (a : Article) : String :=
  pyShow (pyGet a.url "")

/-- Line 72 plus line 76: resolution of the description field. -/
def resolveDescription (a : Article) : String :=
  fixFalsy (pyGet a.description "No description available.") "No description available."

/-- Line 73 plus line 77: `article.get("source", {}).get("name", "Unknown
Source")` followed by the falsy fix-up.  When the article carries
`"source": null`, the outer `get` returns `None` and the inner `.get`
raises `AttributeError`. -/
def resolveSource (a : Article) : Except PyError String :=
  match a.source with
  | JField.null => Except.error PyError.attributeError
  | JField.absent => Except.ok (fixFalsy (some "Unknown Source") "Unknown Source")
  | JField.val src => Except.ok (fixFalsy (pyGet src.name "Unknown Source") "Unknown Source")

/-- Python's `str.replace` for a single-character needle: every occurrence
of `c` is replaced by `r`, scanning the original string left to right. -/
def replace1 (c : Char) (r : List Char) : List Char → List Char
  | [] => []
  | x :: xs => (if x = c then r else [x]) ++ replace1 c r xs

/-- Lines 79-81: the chained
`.replace("[", "\\[").replace("]", "\\]").replace("_", "\\_").replace("*", "\\*")`,
applied innermost-first in the source's order. -/
def escapeChars (l : List Char) : List Char :=
  replace1 '*' ['\\', '*']
    (replace1 '_' ['\\', '_']
      (replace1 ']' ['\\', ']']
        (replace1 '[' ['\\', '['] l)))

/-- The escaping transform at the `String` level. -/
def escapeMd (s : String) : String :=
  String.mk (escapeChars s.data)

/-- Lines 83-85: the three f-string lines appended for one article, given
the already-resolved source name.  The literal pieces are those of the
source; the chain is written right-nested (string append is associative). -/
def articleText (a : Article) (src : String) : String :=
  "• *[" ++ (escapeMd (resolveTitle a) ++ ("](" ++ (resolveUrl a ++ (")*\n  `" ++
    (escapeMd (resolveDescription a) ++ ("`\n  *Source:* " ++ (escapeMd src ++ "\n\n")))))))

/-- One iteration of the rendering loop (lines 69-85): resolving the source
name can raise, everything else is total. -/
def renderArticle (a : Article) : Except PyError String :=
  match resolveSource a with
  | Except.error e => Except.error e
  | Except.ok src => Except.ok (articleText a src)

/-- The `for article in articles` loop: blocks are accumulated in order; an
exception raised while processing any article aborts the whole call. -/
def renderLoop : List Article → Except PyError String
  | [] => Except.ok ""
  | a :: rest =>
    match renderArticle a with
    | Except.error e => Except.error e
    | Except.ok block =>
      match renderLoop rest with
      | Except.error e => Except.error e
      | Except.ok tail => Except.ok (block ++ tail)

/-- Lines 63-87: truncate to the first five articles, return the
no-articles message when the truncated list is empty, otherwise run the
rendering loop. -/
def renderNews (query : String) (articlesAll : List Article) : Except PyError String :=
  let articles := articlesAll.take 5
  if articles = [] then Except.ok (noArticlesMsg query)
  else renderLoop articles

/-- Lines 43-87: `get_news`, parametrised by the network as a function from
the request URL to an `HttpResult`.  `raise_for_status` raises (uncaught)
on a non-2xx status; a transport error or a JSON decode error is caught and
converted to the apology message. -/
def get_news (topic apiKey : String) (fetch : String → HttpResult) : Except PyError String :=
  let query := resolveQuery topic
  let url := buildUrl query apiKey
  match fetch url with
  | HttpResult.transportError => Except.ok fetchErrorMsg
  | HttpResult.response status body =>
    if 200 ≤ status ∧ status < 300 then
      match body with
      | none => Except.ok fetchErrorMsg
      | some data => renderNews query (data.articles.getD [])
    else Except.error PyError.httpStatusError

/-- Per-character escaping as the spec describes it: each of the four
markup characters is prefixed with a backslash, every other character is
left unchanged.  This is the spec-side definition, to be compared with
`escapeChars`, which is translated from the chained `replace` calls. -/
def specEscapeChar (c : Char) : List Char :=
  if c = '[' ∨ c = ']' ∨ c = '_' ∨ c = '*' then ['\\', c] else [c]

/-- The per-article block that `renderLoop` appends when rendering
succeeds, read off the `Except`; used to state order and count properties. -/
def blockOf (a : Article) : String :=
  ((renderArticle a).toOption).getD ""

/-- Concatenation of a list of strings, in order. -/
def joinList : List String → String
  | [] => ""
  | s :: rest => s ++ joinList rest

/-- Truth of an `Except` being a normal return. -/
def isOk : Except PyError String → Bool
  | Except.ok _ => true
  | Except.error _ => false

/-- An article all of whose fields are absent; it renders entirely from
fallback defaults. -/
def defaultArticle : Article :=
  { title := JField.absent, url := JField.absent,
    description := JField.absent, source := JField.absent }

/-- C4: `resolveQuery` maps each of the four fixed category keys to its
documented phrase exactly, and returns every other input string — the
empty string included — unchanged. -/
theorem C4_resolveQuery_map :
    resolveQuery "stocks" = "stock market" ∧
    resolveQuery "ai" = "artificial intelligence" ∧
    resolveQuery "crypto" = "cryptocurrency" ∧
    resolveQuery "tech" = "technology" ∧
    resolveQuery "" = "" ∧
    ∀ topic : String, topic ≠ "stocks" → topic ≠ "ai" → topic ≠ "crypto" →
      topic ≠ "tech" → resolveQuery topic = topic := by
  refine ⟨by decide, by decide, by decide, by decide, by decide, ?_⟩
  intro t h1 h2 h3 h4
  simp [resolveQuery, h1, h2, h3, h4]

/-- C4 witness: a concrete non-category topic passes through unchanged. -/
theorem C4_resolveQuery_map_witness : resolveQuery "NVIDIA" = "NVIDIA" :=
  C4_resolveQuery_map.2.2.2.2.2 "NVIDIA" (by decide) (by decide) (by decide) (by decide)

/-- C2 counterexample: the free-text message `"ai"` is not used verbatim —
the message handler passes the raw text to `get_news`, whose `query_map`
lookup rewrites it to `"artificial intelligence"`, visible end to end in
the no-articles message produced for an empty result set. -/
theorem C2_counterexample :
    resolveQuery "ai" = "artificial intelligence" ∧
    resolveQuery "ai" ≠ "ai" ∧
    get_news "ai" "K" (fun _ => HttpResult.response 200 (some ⟨some []⟩)) =
      Except.ok (noArticlesMsg "artificial intelligence") ∧
    noArticlesMsg "artificial intelligence" ≠ noArticlesMsg "ai" := by
  refine ⟨by decide, by decide, rfl, by decide⟩

/-- C2 amended: a free-text message is used verbatim as the provider query
exactly when it is not one of the four category keys; a free-text message
equal to a category key is rewritten to that key's phrase. -/
theorem C2_freeText_verbatim (msg : String) (h1 : msg ≠ "stocks") (h2 : msg ≠ "ai")
    (h3 : msg ≠ "crypto") (h4 : msg ≠ "tech") : resolveQuery msg = msg := by
  simp [resolveQuery, h1, h2, h3, h4]

/-- C2 witness: the spec's own free-text example passes through verbatim. -/
theorem C2_freeText_verbatim_witness : resolveQuery "quantum computing" = "quantum computing" :=
  C2_freeText_verbatim "quantum computing" (by decide) (by decide) (by decide) (by decide)

/-- C1 counterexample: a transport error is caught but converted to the
fixed apology message, not to an empty article sequence rendered as the
no-recent-articles message; and a non-success HTTP status (500) is not
caught at all — `httpx.HTTPStatusError` escapes `get_news`. -/
theorem C1_counterexample :
    get_news "x" "K" (fun _ => HttpResult.transportError) = Except.ok fetchErrorMsg ∧
    fetchErrorMsg ≠ noArticlesMsg "x" ∧
    get_news "x" "K" (fun _ => HttpResult.response 500 (some ⟨some []⟩)) =
      Except.error PyError.httpStatusError := by
  refine ⟨rfl, by decide, rfl⟩

/-- C1 amended: a transport failure or a malformed JSON body is caught
inside the fetch and converted to the fixed apology message (not to an
empty sequence and not the no-recent-articles message), while a
non-success HTTP status raises an exception that escapes the operation. -/
theorem C1_failure_handling (topic key : String) (r : HttpResult) :
    (r = HttpResult.transportError →
      get_news topic key (fun _ => r) = Except.ok fetchErrorMsg) ∧
    (∀ st b, r = HttpResult.response st b → ¬(200 ≤ st ∧ st < 300) →
      get_news topic key (fun _ => r) = Except.error PyError.httpStatusError) ∧
    (∀ st, r = HttpResult.response st none → (200 ≤ st ∧ st < 300) →
      get_news topic key (fun _ => r) = Except.ok fetchErrorMsg) := by
  refine ⟨?_, ?_, ?_⟩
  · rintro rfl; rfl
  · rintro st b rfl hst
    simp [get_news, hst]
  · rintro st rfl hst
    simp [get_news, hst]

/-- C1 witness: a 404 response makes `get_news` raise, and a transport
error yields the apology message. -/
theorem C1_failure_handling_witness :
    get_news "btc" "K" (fun _ => HttpResult.response 404 (some ⟨some []⟩)) =
      Except.error PyError.httpStatusError ∧
    get_news "btc" "K" (fun _ => HttpResult.transportError) = Except.ok fetchErrorMsg :=
  ⟨(C1_failure_handling "btc" "K" (HttpResult.response 404 (some ⟨some []⟩))).2.1
      404 (some ⟨some []⟩) rfl (by decide),
   (C1_failure_handling "btc" "K" HttpResult.transportError).1 rfl⟩

/-- C10: the request URL is built by direct string interpolation of the
resolved query between a fixed prefix and a fixed suffix, with no
URL-encoding; the free-text query `"a&b=c"` resolves to itself and its
`&` and `=` appear verbatim in the URL's query-parameter region. -/
theorem C10_url_interpolation :
    resolveQuery "a&b=c" = "a&b=c" ∧
    buildUrl "a&b=c" "KEY" =
      "https://newsapi.org/v2/everything?q=a&b=c&language=en&sortBy=publishedAt&apiKey=KEY" ∧
    ∀ q k : String, (buildUrl q k).data =
      ("https://newsapi.org/v2/everything?q=").data ++ q.data ++
        ("&language=en&sortBy=publishedAt&apiKey=").data ++ k.data := by
  refine ⟨by decide, by decide, ?_⟩
  intro q k
  simp [buildUrl]

theorem replace1_append (c : Char) (r : List Char) (a b : List Char) :
    replace1 c r (a ++ b) = replace1 c r a ++ replace1 c r b := by
  induction a with
  | nil => rfl
  | cons x xs ih => simp [replace1, ih]

theorem escapeChars_append (a b : List Char) :
    escapeChars (a ++ b) = escapeChars a ++ escapeChars b := by
  simp [escapeChars, replace1_append]

theorem escapeChars_single (x : Char) : escapeChars [x] = specEscapeChar x := by
  by_cases h1 : x = '['
  · subst h1; decide
  by_cases h2 : x = ']'
  · subst h2; decide
  by_cases h3 : x = '_'
  · subst h3; decide
  by_cases h4 : x = '*'
  · subst h4; decide
  simp [escapeChars, replace1, specEscapeChar, h1, h2, h3, h4]

theorem escapeChars_eq_flatMap (l : List Char) :
    escapeChars l = l.flatMap specEscapeChar := by
  induction l with
  | nil => rfl
  | cons x xs ih =>
    have : x :: xs = [x] ++ xs := rfl
    rw [this, escapeChars_append, escapeChars_single, ih]
    simp

theorem data_append (s t : String) : (s ++ t).data = s.data ++ t.data := rfl

/-- C6: the escaping used on article fields prefixes every occurrence of
`[`, `]`, `_`, `*` with a backslash and leaves every other character
unchanged: it coincides character by character with the spec-side
per-character transform. -/
theorem C6_escape_pointwise (s : String) :
    (escapeMd s).data = s.data.flatMap specEscapeChar :=
  escapeChars_eq_flatMap s.data

/-- C9: the escaping transform is a homomorphism over string
concatenation. -/
theorem C9_escape_append (a b : String) :
    escapeMd (a ++ b) = escapeMd a ++ escapeMd b := by
  have h : escapeChars ((a ++ b).data) = escapeChars a.data ++ escapeChars b.data := by
    rw [data_append, escapeChars_append]
  simp only [escapeMd]
  rw [h]
  rfl

/-- C7: field-level fallback defaults — an absent, null or empty title
resolves to `"No title"`, an absent, null or empty description resolves to
`"No description available."`, and a source name that is absent (the whole
`source` object missing, or the object present without a usable name),
null or empty resolves to `"Unknown Source"`. -/
theorem C7_field_fallbacks (a : Article) :
    ((a.title = JField.absent ∨ a.title = JField.null ∨ a.title = JField.val "") →
      resolveTitle a = "No title") ∧
    ((a.description = JField.absent ∨ a.description = JField.null ∨
        a.description = JField.val "") →
      resolveDescription a = "No description available.") ∧
    (a.source = JField.absent → resolveSource a = Except.ok "Unknown Source") ∧
    (∀ src : Source, a.source = JField.val src →
      (src.name = JField.absent ∨ src.name = JField.null ∨ src.name = JField.val "") →
      resolveSource a = Except.ok "Unknown Source") := by
  refine ⟨?_, ?_, ?_, ?_⟩
  · rintro (h | h | h) <;> simp [resolveTitle, pyGet, fixFalsy, h]
  · rintro (h | h | h) <;> simp [resolveDescription, pyGet, fixFalsy, h]
  · intro h; simp [resolveSource, fixFalsy, h]
  · rintro src h (hn | hn | hn) <;> simp [resolveSource, pyGet, fixFalsy, h, hn]

/-- C7 witness: a concrete article with a null title, absent description
and empty source name resolves to the three fallback defaults. -/
theorem C7_field_fallbacks_witness :
    resolveTitle ⟨JField.null, JField.absent, JField.absent, JField.val ⟨JField.val ""⟩⟩ =
      "No title" ∧
    resolveDescription ⟨JField.null, JField.absent, JField.absent, JField.val ⟨JField.val ""⟩⟩ =
      "No description available." ∧
    resolveSource ⟨JField.null, JField.absent, JField.absent, JField.val ⟨JField.val ""⟩⟩ =
      Except.ok "Unknown Source" :=
  ⟨(C7_field_fallbacks _).1 (Or.inr (Or.inl rfl)),
   (C7_field_fallbacks _).2.1 (Or.inl rfl),
   (C7_field_fallbacks _).2.2.2 ⟨JField.val ""⟩ rfl (Or.inr (Or.inr rfl))⟩

/-- C8: rendering an empty article sequence yields the fixed
no-recent-articles message: the literal query is embedded verbatim
(unescaped) between apostrophes in a fixed template, and — whenever the
query itself contains no bullet character — the message contains no
article bullet. -/
theorem C8_empty_message (query : String) :
    renderNews query [] = Except.ok (noArticlesMsg query) ∧
    noArticlesMsg query =
      "⚠️ No recent articles found for " ++ apos ++ query ++ apos ++ "." ∧
    (¬ '•' ∈ query.data → ¬ '•' ∈ (noArticlesMsg query).data) := by
  refine ⟨rfl, rfl, ?_⟩
  intro hq h
  simp only [noArticlesMsg, data_append, List.mem_append] at h
  rcases h with ((((h | h) | h) | h) | h)
  · exact absurd h (by decide)
  · exact absurd h (by decide)
  · exact hq h
  · exact absurd h (by decide)
  · exact absurd h (by decide)

/-- C8 witness: at the concrete query `"x"` the empty rendering is the
template message and contains no bullet character. -/
theorem C8_empty_message_witness :
    renderNews "x" [] = Except.ok (noArticlesMsg "x") ∧
    ¬ '•' ∈ (noArticlesMsg "x").data :=
  ⟨(C8_empty_message "x").1, (C8_empty_message "x").2.2 (by decide)⟩

theorem renderArticle_ok (a : Article) (h : a.source ≠ JField.null) :
    renderArticle a = Except.ok (blockOf a) := by
  cases hs : a.source with
  | null => exact absurd hs h
  | absent => simp [renderArticle, resolveSource, blockOf, hs, Except.toOption]
  | val src => simp [renderArticle, resolveSource, blockOf, hs, Except.toOption]

theorem articleText_bullet (a : Article) (src : String) :
    ∃ t : String, articleText a src = "• *[" ++ t :=
  ⟨_, rfl⟩

theorem renderLoop_join (l : List Article) (h : ∀ a ∈ l, a.source ≠ JField.null) :
    renderLoop l = Except.ok (joinList (l.map blockOf)) := by
  induction l with
  | nil => rfl
  | cons a rest ih =>
    have ha : a.source ≠ JField.null := h a (by simp)
    have hrest : ∀ x ∈ rest, x.source ≠ JField.null := fun x hx => h x (by simp [hx])
    simp [renderLoop, renderArticle_ok a ha, ih hrest, joinList]

theorem blockOf_bullet (a : Article) (h : a.source ≠ JField.null) :
    ∃ t : String, blockOf a = "• *[" ++ t := by
  cases hs : a.source with
  | null => exact absurd hs h
  | absent =>
    have hb : blockOf a = articleText a (fixFalsy (some "Unknown Source") "Unknown Source") := by
      simp [blockOf, renderArticle, resolveSource, hs, Except.toOption]
    rw [hb]
    exact articleText_bullet _ _
  | val src =>
    have hb : blockOf a =
        articleText a (fixFalsy (pyGet src.name "Unknown Source") "Unknown Source") := by
      simp [blockOf, renderArticle, resolveSource, hs, Except.toOption]
    rw [hb]
    exact articleText_bullet _ _

/-- C5: on a nonempty provider list whose first five articles all render
(no null `source` object among them), the output is exactly the
concatenation, in provider order, of the per-article blocks of the first
five articles — `min n 5` blocks, each one an article bullet, anything
beyond the fifth dropped. -/
theorem C5_first_five (query : String) (arts : List Article)
    (hne : arts ≠ [])
    (hok : ∀ a ∈ arts.take 5, a.source ≠ JField.null) :
    renderNews query arts = Except.ok (joinList ((arts.take 5).map blockOf)) ∧
    ((arts.take 5).map blockOf).length = min arts.length 5 ∧
    ∀ b ∈ (arts.take 5).map blockOf, ∃ t : String, b = "• *[" ++ t := by
  refine ⟨?_, ?_, ?_⟩
  · have htake : ¬ (arts.take 5 = []) := by
      cases arts with
      | nil => exact absurd rfl hne
      | cons x xs => simp [List.take]
    simp [renderNews, htake, renderLoop_join (arts.take 5) hok]
  · simp [Nat.min_comm]
  · intro b hb
    rcases List.mem_map.mp hb with ⟨a, ha, rfl⟩
    exact blockOf_bullet a (hok a ha)

/-- C5 witness: seven synthetic articles render to exactly five blocks in
order, each starting with a bullet. -/
theorem C5_first_five_witness :
    renderNews "q" (List.replicate 7 defaultArticle) =
      Except.ok (joinList (((List.replicate 7 defaultArticle).take 5).map blockOf)) ∧
    (((List.replicate 7 defaultArticle).take 5).map blockOf).length =
      min (List.replicate 7 defaultArticle).length 5 ∧
    ∀ b ∈ ((List.replicate 7 defaultArticle).take 5).map blockOf,
      ∃ t : String, b = "• *[" ++ t :=
  C5_first_five "q" (List.replicate 7 defaultArticle) (by decide) (by decide)

/-- C3 counterexample: a well-formed 200 response whose single article
carries `"source": null` makes the pipeline raise `AttributeError`
(`None.get`), so no string is returned at all. -/
theorem C3_counterexample :
    get_news "x" "K" (fun _ => HttpResult.response 200
        (some ⟨some [⟨JField.val "t", JField.val "u", JField.val "d", JField.null⟩]⟩)) =
      Except.error PyError.attributeError := rfl

/-- C3 amended: the pipeline returns a string — never raises — whenever
the provider interaction is a transport error, or a response whose status
is a success and whose body either fails to decode or decodes with no
article among the first five carrying a null `source` object; outside
these cases (a non-success status, or a null `source` in the first five
articles) an exception escapes. -/
theorem C3_total_render (topic key : String) (r : HttpResult)
    (h : r = HttpResult.transportError ∨
      ∃ st b, r = HttpResult.response st b ∧ (200 ≤ st ∧ st < 300) ∧
        ∀ d, b = some d → ∀ a ∈ (d.articles.getD []).take 5, a.source ≠ JField.null) :
    isOk (get_news topic key (fun _ => r)) = true := by
  rcases h with rfl | ⟨st, b, rfl, hst, hb⟩
  · rfl
  · cases b with
    | none => simp [get_news, hst, isOk]
    | some d =>
      by_cases he : (d.articles.getD []).take 5 = []
      · simp [get_news, hst, renderNews, he, isOk]
      · simp [get_news, hst, renderNews, he, renderLoop_join _ (hb d rfl), isOk]

/-- C3 witness: concrete runs — a transport error and a 200 response with
one fully-null-free article — both return a string. -/
theorem C3_total_render_witness :
    isOk (get_news "x" "K" (fun _ => HttpResult.transportError)) = true ∧
    isOk (get_news "x" "K" (fun _ => HttpResult.response 200
        (some ⟨some [defaultArticle]⟩))) = true :=
  ⟨C3_total_render "x" "K" HttpResult.transportError (Or.inl rfl),
   C3_total_render "x" "K" (HttpResult.response 200 (some ⟨some [defaultArticle]⟩))
     (Or.inr ⟨200, some ⟨some [defaultArticle]⟩, rfl, by decide, by decide⟩)⟩

end NewsBot
